import Mathlib

/-!
Verification of the cen64 simulator sources against their specification.

This file contains a shallow embedding of the parts of the cen64 code base
that the specification's claims are about:

* `src/vr4300/dcache.c` — the VR4300 data cache (direct-mapped, 512 lines of
  16 bytes, virtually indexed, physically tagged);
* `src/common/debug.c` and `src/common/debug.h` — the log-file handling and
  the `LOG` macro;
* `src/cen64.c` — the entry point `cen64_main`, `load_roms`, `load_paks` and
  `run_device`;
* `src/rsp/opcodes_priv.h` — the RSP decoded-operation table entries for the
  vector load/store variants.

Machine integers are modelled as `Nat` with explicit reduction modulo `2^32`
where the C code computes in `uint32_t`.  Stateful C code becomes explicit
state passing; functions whose only effect is I/O return an explicit trace
(a list of emitted messages or performed writes).
-/

/-! ### Generic bit-arithmetic helper lemmas -/

/-- Truncation to an unsigned 32-bit value, the semantics of storing into a
`uint32_t` field. -/
def u32 (n : Nat) : Nat := n % 4294967296

theorem and_511_lt (x : Nat) : x &&& 511 < 512 := by
  have h : (511 : Nat) = 2 ^ 9 - 1 := rfl
  rw [h, Nat.and_pow_two_sub_one_eq_mod]
  exact Nat.mod_lt _ (by norm_num)

theorem shiftRight_and_distrib_nat (a b n : Nat) :
    (a &&& b) >>> n = (a >>> n) &&& (b >>> n) := by
  apply Nat.eq_of_testBit_eq
  intro i
  simp [Nat.testBit_shiftRight, Nat.testBit_and]

theorem testBit_false_of_lt_pow {v n : Nat} (h : v < 2 ^ n) {i : Nat} (hi : n ≤ i) :
    v.testBit i = false := by
  apply Nat.testBit_lt_two_pow
  exact lt_of_lt_of_le h (Nat.pow_le_pow_right (by norm_num) hi)

theorem mul4096_or_small (s v : Nat) (hv : v < 4096) :
    s * 4096 ||| v = s * 4096 + v := by
  have hv' : v < 2 ^ 12 := hv
  have hrw : s * 4096 = 2 ^ 12 * s := by ring
  apply Nat.eq_of_testBit_eq
  intro i
  rw [Nat.testBit_or, hrw, Nat.testBit_mul_pow_two_add s hv' i]
  have hls : (2 ^ 12 * s : Nat) = s <<< 12 := by rw [Nat.shiftLeft_eq]; ring
  rw [hls, Nat.testBit_shiftLeft]
  by_cases h : i < 12
  · simp [h, Nat.not_le.mpr h]
  · have h' : 12 ≤ i := Nat.not_lt.mp h
    simp [h, h', testBit_false_of_lt_pow hv' h']

theorem u32_shiftLeft12 (tag : Nat) : u32 (tag <<< 12) = tag % 1048576 * 4096 := by
  unfold u32
  rw [Nat.shiftLeft_eq]
  have h : (4294967296 : Nat) = 1048576 * 4096 := by norm_num
  rw [show ((2 : Nat) ^ 12) = 4096 from rfl, h, Nat.mul_mod_mul_right]

/-! ### VR4300 data cache (src/vr4300/dcache.c)

The cache line layout (`vr4300/dcache.h`) is not among the sources.
Modelled from the spec: a line holds 16 bytes of data plus a 32-bit
`metadata` word encoding the physical tag in its upper 20 bits (bits 12-31),
the valid bit at bit 0 and the dirty bit at bit 1; the cache is
direct-mapped with 512 lines. -/

structure vr4300_dcache_line where
  data : Fin 16 → Nat
  metadata : Nat

structure vr4300_dcache where
  lines : Fin 512 → vr4300_dcache_line

/-- Line index used by `get_line`: `vaddr >> 4 & 0x1FF`. -/
def dcache_index (vaddr : Nat) : Fin 512 :=
  ⟨(vaddr >>> 4) &&& 0x1FF, and_511_lt _⟩

/-- `get_line` / `get_line_const`: returns the line for a given virtual address. -/
def get_line (dcache : vr4300_dcache) (vaddr : Nat) : vr4300_dcache_line :=
  dcache.lines (dcache_index vaddr)

/-- Functional counterpart of writing through the pointer returned by `get_line`. -/
def update_line (dcache : vr4300_dcache) (vaddr : Nat)
    (line : vr4300_dcache_line) : vr4300_dcache :=
  ⟨Function.update dcache.lines (dcache_index vaddr) line⟩

/-- `get_tag`: returns the physical tag associated with the line. -/
def get_tag (line : vr4300_dcache_line) : Nat :=
  line.metadata >>> 12

/-- `invalidate_line`: `metadata &= ~0x1` in `uint32_t` arithmetic. -/
def invalidate_line (line : vr4300_dcache_line) : vr4300_dcache_line :=
  { line with metadata := line.metadata &&& 0xFFFFFFFE }

/-- `is_dirty`: `(metadata & 0x2) == 0x2`. -/
def is_dirty (line : vr4300_dcache_line) : Bool :=
  line.metadata &&& 0x2 == 0x2

/-- `is_valid`: `(metadata & 0x1) == 0x1`. -/
def is_valid (line : vr4300_dcache_line) : Bool :=
  line.metadata &&& 0x1 == 0x1

/-- `set_clean`: `metadata &= ~0x2` in `uint32_t` arithmetic. -/
def set_clean (line : vr4300_dcache_line) : vr4300_dcache_line :=
  { line with metadata := line.metadata &&& 0xFFFFFFFD }

/-- `set_dirty`: `metadata |= 0x2`. -/
def set_dirty (line : vr4300_dcache_line) : vr4300_dcache_line :=
  { line with metadata := line.metadata ||| 0x2 }

/-- `set_tag`: `metadata = (tag << 12) | (metadata & 0x1)` in `uint32_t`. -/
def set_tag (line : vr4300_dcache_line) (tag : Nat) : vr4300_dcache_line :=
  { line with metadata := u32 (tag <<< 12) ||| (line.metadata &&& 0x1) }

/-- `validate_line`: `metadata = (tag << 12) | 0x1` in `uint32_t`. -/
def validate_line (line : vr4300_dcache_line) (tag : Nat) : vr4300_dcache_line :=
  { line with metadata := u32 (tag <<< 12) ||| 0x1 }

/-- `vr4300_dcache_fill`: copies the 16 data bytes into the line, then
`validate_line(line, paddr >> 4)` and `set_clean(line)`. -/
def vr4300_dcache_fill (dcache : vr4300_dcache) (vaddr paddr : Nat)
    (data : Fin 16 → Nat) : vr4300_dcache :=
  update_line dcache vaddr
    (set_clean (validate_line { get_line dcache vaddr with data := data } (paddr >>> 4)))

/-- `vr4300_dcache_get_tag`: returns the tag of the line. -/
def vr4300_dcache_get_tag (line : vr4300_dcache_line) : Nat :=
  get_tag line

/-- `vr4300_dcache_invalidate`: invalidates the line regardless of hit or miss. -/
def vr4300_dcache_invalidate (dcache : vr4300_dcache) (vaddr : Nat) : vr4300_dcache :=
  update_line dcache vaddr (invalidate_line (get_line dcache vaddr))

/-- `vr4300_dcache_invalidate_hit`: invalidates the line only on a tag hit. -/
def vr4300_dcache_invalidate_hit (dcache : vr4300_dcache) (vaddr paddr : Nat) :
    vr4300_dcache :=
  let line := get_line dcache vaddr
  if get_tag line == paddr >>> 4 && is_valid line then
    update_line dcache vaddr (invalidate_line line)
  else dcache

/-- `vr4300_dcache_probe`: returns the line when the stored tag matches
`paddr >> 4` and the line is valid, otherwise `NULL` (here `none`). -/
def vr4300_dcache_probe (dcache : vr4300_dcache) (vaddr paddr : Nat) :
    Option vr4300_dcache_line :=
  let line := get_line dcache vaddr
  if get_tag line == paddr >>> 4 && is_valid line then some line else none

/-- `vr4300_dcache_set_tag`: sets the physical tag associated with the line. -/
def vr4300_dcache_set_tag (dcache : vr4300_dcache) (vaddr tag : Nat) : vr4300_dcache :=
  update_line dcache vaddr (set_tag (get_line dcache vaddr) tag)

/-- `vr4300_dcache_should_flush_line`: returns the line if it is dirty and valid. -/
def vr4300_dcache_should_flush_line (dcache : vr4300_dcache) (vaddr : Nat) :
    Option vr4300_dcache_line :=
  let line := get_line dcache vaddr
  if is_dirty line && is_valid line then some line else none

/-- A 16-byte block written back to memory (tag of the target address plus data). -/
structure dcache_writeback where
  tag : Nat
  data : Fin 16 → Nat

/-- `vr4300_dcache_wb_invalidate`: the source body is
`if (is_valid(line)) invalidate_line(line);` with the write-back marked
`// TODO: Writeback.` and absent.  The second component records the memory
write-backs the call performs — there are none, in either branch. -/
def vr4300_dcache_wb_invalidate (dcache : vr4300_dcache) (vaddr : Nat) :
    vr4300_dcache × List dcache_writeback :=
  let line := get_line dcache vaddr
  if is_valid line then (update_line dcache vaddr (invalidate_line line), [])
  else (dcache, [])

/-! ### Derived facts about the data cache -/

theorem get_line_update_line (c : vr4300_dcache) (vaddr : Nat)
    (line : vr4300_dcache_line) :
    get_line (update_line c vaddr line) vaddr = line := by
  unfold get_line update_line
  simp [Function.update_same]

theorem is_valid_invalidate_line (line : vr4300_dcache_line) :
    is_valid (invalidate_line line) = false := by
  unfold is_valid invalidate_line
  rw [Nat.and_assoc]
  have h : (0xFFFFFFFE : Nat) &&& 0x1 = 0 := rfl
  rw [h, Nat.and_zero]
  rfl

theorem mul4096_and_one (s : Nat) : s * 4096 &&& 1 = 0 := by
  rw [Nat.and_one_is_mod]; omega

theorem mul4096_and_two (s : Nat) : s * 4096 &&& 2 = 0 := by
  have hb : (s * 4096).testBit 1 = false := by
    have hs : s * 4096 = s <<< 12 := by rw [Nat.shiftLeft_eq]
    rw [hs]
    simp [Nat.testBit_shiftLeft]
  have h2 : (2 : Nat) = 2 ^ 1 := rfl
  rw [h2, Nat.and_two_pow, hb]
  rfl

theorem fill_line_eq (c : vr4300_dcache) (vaddr paddr : Nat) (bytes : Fin 16 → Nat) :
    get_line (vr4300_dcache_fill c vaddr paddr bytes) vaddr =
      ⟨bytes, (u32 ((paddr >>> 4) <<< 12) ||| 0x1) &&& 0xFFFFFFFD⟩ := by
  unfold vr4300_dcache_fill
  rw [get_line_update_line]
  rfl

/-- An all-zero cache used as a concrete starting state. -/
def emptyDcache : vr4300_dcache := ⟨fun _ => ⟨fun _ => 0, 0⟩⟩

/-- A cache whose every line is valid and dirty (metadata `0x3`). -/
def dirtyDcache : vr4300_dcache := ⟨fun _ => ⟨fun _ => 171, 3⟩⟩

/-- C1 (amended): for `paddr < 2^24` (so that the physical tag fits the 20-bit
tag field of the 32-bit metadata word), after `vr4300_dcache_fill(dcache, vaddr,
paddr, bytes)` a probe of the same `vaddr`, `paddr` returns (non-NULL) the line
at index `(vaddr >> 4) & 0x1FF`, whose data equals `bytes`, whose tag equals
`paddr >> 4`, and which is valid and clean. -/
theorem dcache_fill_then_probe_hits (c : vr4300_dcache) (vaddr paddr : Nat)
    (bytes : Fin 16 → Nat) (hp : paddr < 16777216) :
    vr4300_dcache_probe (vr4300_dcache_fill c vaddr paddr bytes) vaddr paddr =
      some (get_line (vr4300_dcache_fill c vaddr paddr bytes) vaddr) ∧
    (get_line (vr4300_dcache_fill c vaddr paddr bytes) vaddr).data = bytes ∧
    vr4300_dcache_get_tag (get_line (vr4300_dcache_fill c vaddr paddr bytes) vaddr) =
      paddr >>> 4 ∧
    is_valid (get_line (vr4300_dcache_fill c vaddr paddr bytes) vaddr) = true ∧
    is_dirty (get_line (vr4300_dcache_fill c vaddr paddr bytes) vaddr) = false := by
  have hdiv : paddr >>> 4 = paddr / 16 := by
    rw [Nat.shiftRight_eq_div_pow]
  have ht : paddr >>> 4 < 1048576 := by rw [hdiv]; omega
  have hL : get_line (vr4300_dcache_fill c vaddr paddr bytes) vaddr =
      ⟨bytes, (paddr >>> 4 * 4096 + 1) &&& 0xFFFFFFFD⟩ := by
    rw [fill_line_eq]
    congr 1
    rw [u32_shiftLeft12, Nat.mod_eq_of_lt ht, mul4096_or_small _ _ (by norm_num)]
  have hM_tag : ((paddr >>> 4 * 4096 + 1) &&& 0xFFFFFFFD) >>> 12 = paddr >>> 4 := by
    rw [shiftRight_and_distrib_nat]
    have h1 : (0xFFFFFFFD : Nat) >>> 12 = 1048575 := rfl
    have h2 : (paddr >>> 4 * 4096 + 1) >>> 12 = paddr >>> 4 := by
      rw [Nat.shiftRight_eq_div_pow]
      have : (2 : Nat) ^ 12 = 4096 := rfl
      rw [this]; omega
    rw [h1, h2]
    have h3 : (1048575 : Nat) = 2 ^ 20 - 1 := rfl
    rw [h3, Nat.and_pow_two_sub_one_eq_mod, Nat.mod_eq_of_lt ht]
  have hM_valid : ((paddr >>> 4 * 4096 + 1) &&& 0xFFFFFFFD) &&& 0x1 = 1 := by
    rw [Nat.and_assoc]
    have h1 : (0xFFFFFFFD : Nat) &&& 0x1 = 1 := rfl
    rw [h1, Nat.and_one_is_mod]
    omega
  have hM_dirty : ((paddr >>> 4 * 4096 + 1) &&& 0xFFFFFFFD) &&& 0x2 = 0 := by
    rw [Nat.and_assoc]
    have h1 : (0xFFFFFFFD : Nat) &&& 0x2 = 0 := rfl
    rw [h1, Nat.and_zero]
  refine ⟨?_, ?_, ?_, ?_, ?_⟩
  · simp only [vr4300_dcache_probe, hL, vr4300_dcache_get_tag, get_tag, is_valid,
      hM_tag, hM_valid, beq_self_eq_true, Bool.true_and, if_true]
  · rw [hL]
  · simp only [vr4300_dcache_get_tag, get_tag, hL, hM_tag]
  · simp only [is_valid, hL, hM_valid]
    rfl
  · simp only [is_dirty, hL, hM_dirty]
    rfl

/-- C1 witness: a concrete instance of `dcache_fill_then_probe_hits` at
`vaddr = 0`, `paddr = 0x1000`, all data bytes `171`. -/
theorem dcache_fill_then_probe_hits_witness :
    4096 < 16777216 ∧
    (vr4300_dcache_probe (vr4300_dcache_fill emptyDcache 0 4096 (fun _ => 171)) 0 4096 =
      some (get_line (vr4300_dcache_fill emptyDcache 0 4096 (fun _ => 171)) 0) ∧
    (get_line (vr4300_dcache_fill emptyDcache 0 4096 (fun _ => 171)) 0).data = (fun _ => 171) ∧
    vr4300_dcache_get_tag (get_line (vr4300_dcache_fill emptyDcache 0 4096 (fun _ => 171)) 0) =
      4096 >>> 4 ∧
    is_valid (get_line (vr4300_dcache_fill emptyDcache 0 4096 (fun _ => 171)) 0) = true ∧
    is_dirty (get_line (vr4300_dcache_fill emptyDcache 0 4096 (fun _ => 171)) 0) = false) :=
  ⟨by norm_num, dcache_fill_then_probe_hits emptyDcache 0 4096 (fun _ => 171) (by norm_num)⟩

/-- C1 counterexample: the claim quantifies over every physical address, but the
tag field of the 32-bit metadata word holds only 20 bits, so at
`paddr = 0x01000000` the tag `paddr >> 4 = 2^20` is truncated by
`(tag << 12)` in `uint32_t` arithmetic and the probe right after the fill
misses (returns NULL), with the stored tag reading back as `0`. -/
theorem dcache_fill_probe_misses_at_large_paddr :
    vr4300_dcache_probe
        (vr4300_dcache_fill emptyDcache 0 16777216 (fun _ => 0)) 0 16777216 = none ∧
    vr4300_dcache_get_tag
        (get_line (vr4300_dcache_fill emptyDcache 0 16777216 (fun _ => 0)) 0) = 0 := by
  exact ⟨rfl, rfl⟩

/-- C2 (code bug): `vr4300_dcache_wb_invalidate` is documented ("Writes back the
block if the line is valid, then invalidates the line") and specified to write
a dirty valid line's 16 data bytes back to memory before clearing the valid
bit, but the source body carries `// TODO: Writeback.` and performs no memory
write at all: on a concrete valid+dirty line the call clears the valid bit
while its write-back trace is empty — and the trace is empty for every cache
state and address. -/
theorem dcache_wb_invalidate_performs_no_writeback :
    is_valid (get_line dirtyDcache 0) = true ∧
    is_dirty (get_line dirtyDcache 0) = true ∧
    (vr4300_dcache_wb_invalidate dirtyDcache 0).2 = [] ∧
    is_valid (get_line (vr4300_dcache_wb_invalidate dirtyDcache 0).1 0) = false ∧
    ∀ (c : vr4300_dcache) (vaddr : Nat), (vr4300_dcache_wb_invalidate c vaddr).2 = [] := by
  refine ⟨rfl, rfl, rfl, rfl, ?_⟩
  intro c vaddr
  unfold vr4300_dcache_wb_invalidate
  cases h : is_valid (get_line c vaddr) <;> simp [h]

/-- C3: for every cache state and every `vaddr`, `paddr`, after
`vr4300_dcache_wb_invalidate(dcache, vaddr)` a probe of the same `vaddr`
with any `paddr` misses (returns NULL). -/
theorem dcache_wb_invalidate_then_probe_misses (c : vr4300_dcache)
    (vaddr paddr : Nat) :
    vr4300_dcache_probe (vr4300_dcache_wb_invalidate c vaddr).1 vaddr paddr = none := by
  unfold vr4300_dcache_wb_invalidate
  cases hv : is_valid (get_line c vaddr) with
  | true =>
      simp only [hv, if_true]
      simp [vr4300_dcache_probe, get_line_update_line, is_valid_invalidate_line]
  | false =>
      simp only [Bool.false_eq_true, if_false]
      simp [vr4300_dcache_probe, hv]

/-- C8: `vr4300_dcache_set_tag` rewrites the line's metadata to
`(tag << 12) | (old metadata & 0x1)` (in `uint32_t` arithmetic), so the valid
bit is preserved, the dirty bit is always cleared (a dirty line is clean
afterwards), and the 16 data bytes are unchanged. -/
theorem dcache_set_tag_spec (c : vr4300_dcache) (vaddr tag : Nat) :
    (get_line (vr4300_dcache_set_tag c vaddr tag) vaddr).metadata
        = u32 (tag <<< 12) ||| ((get_line c vaddr).metadata &&& 0x1) ∧
    is_valid (get_line (vr4300_dcache_set_tag c vaddr tag) vaddr)
        = is_valid (get_line c vaddr) ∧
    is_dirty (get_line (vr4300_dcache_set_tag c vaddr tag) vaddr) = false ∧
    (get_line (vr4300_dcache_set_tag c vaddr tag) vaddr).data
        = (get_line c vaddr).data := by
  have hL : get_line (vr4300_dcache_set_tag c vaddr tag) vaddr
      = set_tag (get_line c vaddr) tag := by
    unfold vr4300_dcache_set_tag
    rw [get_line_update_line]
  have hvalid : (u32 (tag <<< 12) ||| ((get_line c vaddr).metadata &&& 0x1)) &&& 0x1
      = (get_line c vaddr).metadata &&& 0x1 := by
    rw [Nat.and_distrib_right, u32_shiftLeft12, mul4096_and_one, Nat.and_assoc]
    have h11 : (0x1 : Nat) &&& 0x1 = 1 := rfl
    rw [h11, Nat.zero_or]
  have hdirty : (u32 (tag <<< 12) ||| ((get_line c vaddr).metadata &&& 0x1)) &&& 0x2
      = 0 := by
    rw [Nat.and_distrib_right, u32_shiftLeft12, mul4096_and_two, Nat.and_assoc]
    have h12 : (0x1 : Nat) &&& 0x2 = 0 := rfl
    rw [h12, Nat.and_zero]
    rfl
  refine ⟨?_, ?_, ?_, ?_⟩
  · rw [hL]; rfl
  · simp only [is_valid, hL, set_tag, hvalid]
  · simp only [is_dirty, hL, set_tag, hdirty]
    rfl
  · rw [hL]; rfl

/-! ### Log-file handling (src/common/debug.c, src/common/debug.h)

The global `FILE *log_fp` is modelled as an `Option Nat` (a null or non-null
handle); `fopen`'s outcome is an input.  Functions whose only effect is a
library call return the trace of the calls performed. -/

/-- `open_log_file`: `log_fp = fopen(path, "w"); if (!log_fp) return 1; return 0;`.
Takes the result of `fopen` and returns the pair (return value, new `log_fp`). -/
def open_log_file (fopen_result : Option Nat) : Nat × Option Nat :=
  match fopen_result with
  | none => (1, none)
  | some h => (0, some h)

/-- `close_log_file`: the source body is `if (!log_fp) { fclose(log_fp); }`.
The result is the list of arguments `fclose` is called with: on a null handle
the code calls `fclose(NULL)`, on a non-null handle it calls nothing. -/
def close_log_file (log_fp : Option Nat) : List (Option Nat) :=
  match log_fp with
  | none => [none]
  | some _ => []

/-- The `LOG(...)` macro: `do { if (log_fp) { fprintf(log_fp, ...); } } while (0)`.
The result is the list of messages actually written to the log file. -/
def LOG (log_fp : Option Nat) (msg : String) : List String :=
  match log_fp with
  | none => []
  | some _ => [msg]

/-- C4 (code bug): the specification requires `close_log_file` to close the
handle exactly when `log_fp` is non-null, but the source inverts the null
check: with a non-null handle it performs no `fclose` call (leaking the
handle), and with a null handle it calls `fclose(NULL)`. -/
theorem close_log_file_inverted_null_check :
    close_log_file (some 7) = [] ∧
    close_log_file none = [none] ∧
    ∀ h : Nat, close_log_file (some h) = [] := by
  exact ⟨rfl, rfl, fun _ => rfl⟩

/-- C9: when `fopen` fails, `open_log_file` returns 1 and leaves `log_fp`
null; and for every message, `LOG` emits nothing when no log file has been
opened (`log_fp` null). -/
theorem open_log_file_failure_and_log_noop :
    open_log_file none = (1, none) ∧
    ∀ msg : String, LOG none msg = [] := by
  exact ⟨rfl, fun _ => rfl⟩

/-! ### Entry point (src/cen64.c)

`cen64_main`, `load_roms` and `run_device` are control-flow over the outcomes
of external calls (file opens, SHA-1 checks, allocation, device creation,
thread creation).  Those outcomes are the inputs of the model; the result is
the C return value paired with the trace of messages printed / actions taken.
`EXIT_SUCCESS = 0` and `EXIT_FAILURE = 1` as in the C standard library. -/

/-- `validate_sha`: computes the SHA-1 of the ROM and compares it against a
known good sum (`memcmp(...) == 0`); the hash itself is external, so the model
compares the already-computed digest. -/
def validate_sha (sha1_calc good_sum : List Nat) : Bool :=
  sha1_calc == good_sum

/-- `load_roms`: the `*_path` booleans say whether the corresponding optional
path was given (the PIF ROM path is always used), the `open_*_ok` booleans are
the outcomes of `open_rom_file`, and the `sha_*` booleans are the outcomes of
`validate_sha` against the known sums.  Returns the C return value paired with
the list of messages printed.  The SHA-1 failure paths only print: the
early-return bodies are compiled out (`#if 0`) in the source. -/
def load_roms (ddipl_path ddrom_path cart_path : Bool)
    (open_ddipl_ok open_ddrom_ok open_pifrom_ok open_cart_ok : Bool)
    (sha_ddipl_ok sha_pifrom_ntsc sha_pifrom_ntsc_j sha_pifrom_pal : Bool) :
    Nat × List String :=
  if ddipl_path && !open_ddipl_ok then (1, ["Failed to load DD IPL ROM."])
  else
    let m1 : List String :=
      if ddipl_path && !sha_ddipl_ok then ["Invalid SHA1 on DD IPL."] else []
    if ddrom_path && !open_ddrom_ok then (2, m1 ++ ["Failed to load DD ROM."])
    else if !open_pifrom_ok then (3, m1 ++ ["Failed to load PIF ROM."])
    else
      let m2 : List String := m1 ++
        (if sha_pifrom_ntsc then ["Using NTSC-U PIFROM"]
         else if sha_pifrom_ntsc_j then ["Using NTSC-J PIFROM"]
         else if sha_pifrom_pal then ["Using PAL PIFROM"]
         else ["Unknown or corrupted PIFROM."])
      if cart_path && !open_cart_ok then (4, m2 ++ ["Failed to load cart."])
      else (0, m2)

/-- `run_device`: sets the running flag and spawns the emulation thread;
returns 1 (printing a diagnostic) when thread creation fails, else 0. -/
def run_device (thread_create_ok : Bool) : Nat × List String :=
  if !thread_create_ok then (1, ["Failed to create the main emulation thread."])
  else (0, [])

/-- Externally observable actions of `cen64_main` that the claims mention. -/
inductive cen64_event where
  | usage
  | alloc_cleanup
  | message (s : String)
deriving DecidableEq

/-- The outcomes of the external calls `cen64_main` makes, in source order.
`load_paks` prints its diagnostics internally and is represented by its
success flag; the save-file opens print nothing on failure in the source. -/
structure cen64_inputs where
  cart_db_well_formed : Bool
  alloc_init_ok : Bool
  argc : Nat
  parse_ok : Bool
  ddipl_path : Bool
  ddrom_path : Bool
  cart_path : Bool
  open_ddipl_ok : Bool
  open_ddrom_ok : Bool
  open_pifrom_ok : Bool
  open_cart_ok : Bool
  sha_ddipl_ok : Bool
  sha_pifrom_ntsc : Bool
  sha_pifrom_ntsc_j : Bool
  sha_pifrom_pal : Bool
  log_path : Bool
  open_log_ok : Bool
  cart_detected : Bool
  load_paks_ok : Bool
  eeprom_path : Bool
  open_eeprom_ok : Bool
  sram_path : Bool
  open_sram_ok : Bool
  flashram_path : Bool
  open_flashram_ok : Bool
  device_alloc_ok : Bool
  device_create_ok : Bool
  thread_create_ok : Bool

/-- `cen64_main`: the entry-point control flow of `src/cen64.c`, returning the
exit code paired with the trace of observable actions.  The final
resource-release block (closing ROM files and the log file) is abstracted to
the `alloc_cleanup` event that ends every post-usage path. -/
def cen64_main (e : cen64_inputs) : Nat × List cen64_event :=
  if !e.cart_db_well_formed then
    (1, [.message "Internal cart detection database is not well-formed."])
  else if !e.alloc_init_ok then
    (1, [.message "Failed to initialize the low-level allocators."])
  else if e.argc < 3 then
    (0, [.usage, .alloc_cleanup])
  else if !e.parse_ok then
    (1, [.message "Invalid command line argument(s) specified.", .usage, .alloc_cleanup])
  else
    let lr := load_roms e.ddipl_path e.ddrom_path e.cart_path e.open_ddipl_ok
      e.open_ddrom_ok e.open_pifrom_ok e.open_cart_ok e.sha_ddipl_ok
      e.sha_pifrom_ntsc e.sha_pifrom_ntsc_j e.sha_pifrom_pal
    if lr.1 != 0 then (1, lr.2.map cen64_event.message ++ [.alloc_cleanup])
    else if e.log_path && !e.open_log_ok then
      (1, lr.2.map cen64_event.message ++ [.alloc_cleanup])
    else
      let m2 := lr.2.map cen64_event.message ++
        (if e.cart_detected then [cen64_event.message "Detected cart"] else [])
      if !e.load_paks_ok then (1, m2 ++ [.alloc_cleanup])
      else if e.eeprom_path && !e.open_eeprom_ok then (1, m2 ++ [.alloc_cleanup])
      else if e.sram_path && !e.open_sram_ok then (1, m2 ++ [.alloc_cleanup])
      else if e.flashram_path && !e.open_flashram_ok then (1, m2 ++ [.alloc_cleanup])
      else if !e.device_alloc_ok then
        (1, m2 ++ [.message "Failed to allocate enough memory for a device.", .alloc_cleanup])
      else if !e.device_create_ok then
        (1, m2 ++ [.message "Failed to create a device.", .alloc_cleanup])
      else
        let rd := run_device e.thread_create_ok
        (rd.1, m2 ++ rd.2.map cen64_event.message ++ [.alloc_cleanup])

/-- The early-usage exit: with a well-formed cart DB and working allocators,
fewer than two positional arguments print the usage and exit successfully. -/
def cen64_usage_exit (e : cen64_inputs) : Bool :=
  e.cart_db_well_formed && e.alloc_init_ok && decide (e.argc < 3)

/-- Full success of initialization and of the device run: every phase of
`cen64_main` (and the thread creation inside `run_device`) succeeds. -/
def cen64_success (e : cen64_inputs) : Bool :=
  e.cart_db_well_formed && e.alloc_init_ok && !decide (e.argc < 3) && e.parse_ok &&
  !((load_roms e.ddipl_path e.ddrom_path e.cart_path e.open_ddipl_ok
      e.open_ddrom_ok e.open_pifrom_ok e.open_cart_ok e.sha_ddipl_ok
      e.sha_pifrom_ntsc e.sha_pifrom_ntsc_j e.sha_pifrom_pal).1 != 0) &&
  !(e.log_path && !e.open_log_ok) && e.load_paks_ok &&
  !(e.eeprom_path && !e.open_eeprom_ok) && !(e.sram_path && !e.open_sram_ok) &&
  !(e.flashram_path && !e.open_flashram_ok) && e.device_alloc_ok &&
  e.device_create_ok && e.thread_create_ok

/-- C5: when every requested ROM file opens successfully, a SHA-1 mismatch on
the DD IPL or on the PIF ROM only prints a warning: `load_roms` still returns
0 for every combination of SHA-1 outcomes, with the DD IPL warning printed
whenever its check fails and the PIFROM warning printed whenever all three
known sums fail. -/
theorem load_roms_sha_mismatch_still_succeeds
    (ddipl_path ddrom_path cart_path : Bool)
    (sha_ddipl_ok sha_pifrom_ntsc sha_pifrom_ntsc_j sha_pifrom_pal : Bool) :
    (load_roms ddipl_path ddrom_path cart_path true true true true
        sha_ddipl_ok sha_pifrom_ntsc sha_pifrom_ntsc_j sha_pifrom_pal).1 = 0 ∧
    (ddipl_path = true → sha_ddipl_ok = false →
      "Invalid SHA1 on DD IPL." ∈ (load_roms ddipl_path ddrom_path cart_path true
        true true true sha_ddipl_ok sha_pifrom_ntsc sha_pifrom_ntsc_j
        sha_pifrom_pal).2) ∧
    (sha_pifrom_ntsc = false → sha_pifrom_ntsc_j = false → sha_pifrom_pal = false →
      "Unknown or corrupted PIFROM." ∈ (load_roms ddipl_path ddrom_path cart_path
        true true true true sha_ddipl_ok sha_pifrom_ntsc sha_pifrom_ntsc_j
        sha_pifrom_pal).2) := by
  cases ddipl_path <;> cases ddrom_path <;> cases cart_path <;> cases sha_ddipl_ok <;>
    cases sha_pifrom_ntsc <;> cases sha_pifrom_ntsc_j <;> cases sha_pifrom_pal <;>
    decide

/-- C5 witness: DD IPL given and its SHA-1 check fails, the PIF ROM matches no
known sum, all opens succeed: `load_roms` returns 0 and both warnings appear. -/
theorem load_roms_sha_mismatch_still_succeeds_witness :
    (load_roms true false true true true true true false false false false).1 = 0 ∧
    "Invalid SHA1 on DD IPL." ∈
      (load_roms true false true true true true true false false false false).2 ∧
    "Unknown or corrupted PIFROM." ∈
      (load_roms true false true true true true true false false false false).2 :=
  ⟨(load_roms_sha_mismatch_still_succeeds true false true false false false false).1,
   (load_roms_sha_mismatch_still_succeeds true false true false false false false).2.1
     rfl rfl,
   (load_roms_sha_mismatch_still_succeeds true false true false false false false).2.2
     rfl rfl rfl⟩

/-- C6 (amended): `cen64_main` returns 0 exactly when either every phase
(initialization and the device run) succeeds or the early usage path is taken
(`argc < 3` after a well-formed cart DB and allocator init), and returns
`EXIT_FAILURE = 1` on every failure — a single code for all phases. -/
theorem cen64_main_exit_code_characterization (e : cen64_inputs) :
    (cen64_main e).1 = if cen64_usage_exit e || cen64_success e then 0 else 1 := by
  obtain ⟨db, al, argc, par, dp, drp, cp, odi, odr, opi, oca, sdi, snt, sjt, spa,
    lp, olo, cd, lpk, ep, oep, sp, osp, fp, ofp, dal, dcr, thr⟩ := e
  simp only [cen64_main, cen64_usage_exit, cen64_success, run_device]
  cases db with
  | false => rfl
  | true =>
  cases al with
  | false => rfl
  | true =>
  by_cases h3 : argc < 3
  · simp [h3]
  · simp only [h3, decide_eq_false h3, if_false, Bool.not_false, Bool.true_and,
      Bool.and_true]
    cases par with
    | false => simp
    | true =>
    simp only [Bool.not_true, Bool.false_eq_true, if_false, Bool.true_and]
    cases hlr : (load_roms dp drp cp odi odr opi oca sdi snt sjt spa).1 != 0 with
    | true => simp [hlr]
    | false =>
      simp only [hlr, Bool.false_eq_true, if_false, Bool.not_false, Bool.true_and]
      cases hlog : lp && !olo with
      | true => simp [hlog]
      | false =>
      simp only [hlog, Bool.false_eq_true, if_false, Bool.not_false, Bool.true_and]
      cases lpk with
      | false => simp
      | true =>
      simp only [Bool.not_true, Bool.false_eq_true, if_false, Bool.true_and]
      cases hee : ep && !oep with
      | true => simp [hee]
      | false =>
      simp only [hee, Bool.false_eq_true, if_false, Bool.not_false, Bool.true_and]
      cases hsr : sp && !osp with
      | true => simp [hsr]
      | false =>
      simp only [hsr, Bool.false_eq_true, if_false, Bool.not_false, Bool.true_and]
      cases hfl : fp && !ofp with
      | true => simp [hfl]
      | false =>
      simp only [hfl, Bool.false_eq_true, if_false, Bool.not_false, Bool.true_and]
      cases dal with
      | false => simp
      | true =>
      cases dcr with
      | false => simp
      | true =>
      cases thr with
      | false => simp
      | true => simp

/-- Inputs whose only failure is the very first phase: the cart detection
database is malformed. -/
def cart_db_fail_inputs : cen64_inputs :=
  ⟨false, true, 3, true, false, false, true, true, true, true, true,
   true, true, false, false, false, true, false, true, false, true, false, true,
   false, true, true, true, true⟩

/-- Inputs whose only failure is the very last phase: creation of the main
emulation thread inside `run_device`. -/
def thread_fail_inputs : cen64_inputs :=
  ⟨true, true, 3, true, false, false, true, true, true, true, true,
   true, true, false, false, false, true, false, true, false, true, false, true,
   false, true, true, true, false⟩

/-- Inputs that take the usage path: `argc = 1` with a well-formed cart DB and
working allocators. -/
def usage_inputs : cen64_inputs :=
  ⟨true, true, 1, true, false, false, true, true, true, true, true,
   true, true, false, false, false, true, false, true, false, true, false, true,
   false, true, true, true, true⟩

/-- C6 counterexample: the exit codes do not distinguish the failing phase —
a malformed cart DB (first phase) and a failed thread creation (last phase)
both exit with the same code 1; and the usage path exits with code 0 although
no device was created or run. -/
theorem cen64_main_failure_codes_not_distinct :
    (cen64_main cart_db_fail_inputs).1 = 1 ∧
    (cen64_main thread_fail_inputs).1 = 1 ∧
    (cen64_main usage_inputs).1 = 0 :=
  ⟨rfl, rfl, rfl⟩

/-- C10: with a well-formed cart DB and successful allocator initialization,
fewer than two positional arguments (`argc < 3`) make `cen64_main` print the
command-line usage, clean up the allocators, and return `EXIT_SUCCESS = 0`. -/
theorem cen64_main_usage_path (e : cen64_inputs)
    (hdb : e.cart_db_well_formed = true) (hal : e.alloc_init_ok = true)
    (hargc : e.argc < 3) :
    cen64_main e = (0, [cen64_event.usage, cen64_event.alloc_cleanup]) := by
  unfold cen64_main
  rw [hdb, hal]
  simp [hargc]

/-- C10 witness: the usage path at `argc = 1`. -/
theorem cen64_main_usage_path_witness :
    usage_inputs.cart_db_well_formed = true ∧ usage_inputs.alloc_init_ok = true ∧
    usage_inputs.argc < 3 ∧
    cen64_main usage_inputs = (0, [cen64_event.usage, cen64_event.alloc_cleanup]) :=
  ⟨rfl, rfl, by decide, cen64_main_usage_path usage_inputs rfl rfl (by decide)⟩

/-! ### RSP decoded-operation table (src/rsp/opcodes_priv.h)

Modelled from the spec: `rsp/opcodes.h` (the `RSP_BUILD_OP` macro and the
`OPCODE_INFO_*` bit constants) is not among the sources; per the spec the
decoded-operation record carries an opcode kind, a function kind and an
"info" bitset over the flags NEEDRS, NEEDRT, NEEDVS, NEEDVT, BRANCH, LOAD,
STORE, VECTOR (`OPCODE_INFO_NONE` contributes no flag).  The table entries
below transcribe lines 121-144 of `opcodes_priv.h`. -/

inductive rsp_opcode_id where
  | INVALID_ID
  | LBV | LDV | LFV | LHV | LLV | LPV | LQV | LRV | LSV | LTV | LUV
  | SBV | SDV | SFV | SHV | SLV | SPV | SQV | SRV | SSV | STV | SUV | SWV
deriving DecidableEq

inductive rsp_function_id where
  | INVALID
  | BDLQSV_SBDLQSV
deriving DecidableEq

inductive rsp_opcode_info where
  | NEEDRS | NEEDRT | NEEDVS | NEEDVT | BRANCH | LOAD | STORE | VECTOR
deriving DecidableEq

/-- A decoded-operation record: opcode kind, function kind, info bitset. -/
structure rsp_opcode_record where
  id : rsp_opcode_id
  fn : rsp_function_id
  info : List rsp_opcode_info
deriving DecidableEq

/-- `#define INVALID RSP_BUILD_OP(INVALID, INVALID, INFO1(NONE))` -/
def INVALID : rsp_opcode_record := ⟨.INVALID_ID, .INVALID, []⟩

/-- `LBV = RSP_BUILD_OP(LBV, BDLQSV_SBDLQSV, INFO3(NEEDRS, NEEDVT, LOAD))` -/
def LBV : rsp_opcode_record := ⟨.LBV, .BDLQSV_SBDLQSV, [.NEEDRS, .NEEDVT, .LOAD]⟩

/-- `LDV = RSP_BUILD_OP(LDV, BDLQSV_SBDLQSV, INFO3(NEEDRS, NEEDVT, LOAD))` -/
def LDV : rsp_opcode_record := ⟨.LDV, .BDLQSV_SBDLQSV, [.NEEDRS, .NEEDVT, .LOAD]⟩

/-- `LFV = RSP_BUILD_OP(LFV, INVALID, INFO1(NONE))` -/
def LFV : rsp_opcode_record := ⟨.LFV, .INVALID, []⟩

/-- `LHV = RSP_BUILD_OP(LHV, INVALID, INFO1(NONE))` -/
def LHV : rsp_opcode_record := ⟨.LHV, .INVALID, []⟩

/-- `LLV = RSP_BUILD_OP(LLV, BDLQSV_SBDLQSV, INFO3(NEEDRS, NEEDVT, LOAD))` -/
def LLV : rsp_opcode_record := ⟨.LLV, .BDLQSV_SBDLQSV, [.NEEDRS, .NEEDVT, .LOAD]⟩

/-- `LPV = RSP_BUILD_OP(LPV, INVALID, INFO1(NONE))` -/
def LPV : rsp_opcode_record := ⟨.LPV, .INVALID, []⟩

/-- `LQV = RSP_BUILD_OP(LQV, BDLQSV_SBDLQSV, INFO3(NEEDRS, NEEDVT, LOAD))` -/
def LQV : rsp_opcode_record := ⟨.LQV, .BDLQSV_SBDLQSV, [.NEEDRS, .NEEDVT, .LOAD]⟩

/-- `LRV = RSP_BUILD_OP(LRV, INVALID, INFO1(NONE))` -/
def LRV : rsp_opcode_record := ⟨.LRV, .INVALID, []⟩

/-- `LSV = RSP_BUILD_OP(LSV, BDLQSV_SBDLQSV, INFO3(NEEDRS, NEEDVT, LOAD))` -/
def LSV : rsp_opcode_record := ⟨.LSV, .BDLQSV_SBDLQSV, [.NEEDRS, .NEEDVT, .LOAD]⟩

/-- `LTV = RSP_BUILD_OP(LTV, INVALID, INFO1(NONE))` -/
def LTV : rsp_opcode_record := ⟨.LTV, .INVALID, []⟩

/-- `LUV = RSP_BUILD_OP(LUV, INVALID, INFO1(NONE))` -/
def LUV : rsp_opcode_record := ⟨.LUV, .INVALID, []⟩

/-- `SBV = RSP_BUILD_OP(SBV, BDLQSV_SBDLQSV, INFO3(NEEDRS, NEEDVT, STORE))` -/
def SBV : rsp_opcode_record := ⟨.SBV, .BDLQSV_SBDLQSV, [.NEEDRS, .NEEDVT, .STORE]⟩

/-- `SDV = RSP_BUILD_OP(SDV, BDLQSV_SBDLQSV, INFO3(NEEDRS, NEEDVT, STORE))` -/
def SDV : rsp_opcode_record := ⟨.SDV, .BDLQSV_SBDLQSV, [.NEEDRS, .NEEDVT, .STORE]⟩

/-- `SFV = RSP_BUILD_OP(SFV, INVALID, INFO1(NONE))` -/
def SFV : rsp_opcode_record := ⟨.SFV, .INVALID, []⟩

/-- `SHV = RSP_BUILD_OP(SHV, INVALID, INFO1(NONE))` -/
def SHV : rsp_opcode_record := ⟨.SHV, .INVALID, []⟩

/-- `SLV = RSP_BUILD_OP(SLV, BDLQSV_SBDLQSV, INFO3(NEEDRS, NEEDVT, STORE))` -/
def SLV : rsp_opcode_record := ⟨.SLV, .BDLQSV_SBDLQSV, [.NEEDRS, .NEEDVT, .STORE]⟩

/-- `SPV = RSP_BUILD_OP(SPV, INVALID, INFO1(NONE))` -/
def SPV : rsp_opcode_record := ⟨.SPV, .INVALID, []⟩

/-- `SQV = RSP_BUILD_OP(SQV, BDLQSV_SBDLQSV, INFO3(NEEDRS, NEEDVT, STORE))` -/
def SQV : rsp_opcode_record := ⟨.SQV, .BDLQSV_SBDLQSV, [.NEEDRS, .NEEDVT, .STORE]⟩

/-- `SRV = RSP_BUILD_OP(SRV, INVALID, INFO1(NONE))` -/
def SRV : rsp_opcode_record := ⟨.SRV, .INVALID, []⟩

/-- `SSV = RSP_BUILD_OP(SSV, BDLQSV_SBDLQSV, INFO3(NEEDRS, NEEDVT, STORE))` -/
def SSV : rsp_opcode_record := ⟨.SSV, .BDLQSV_SBDLQSV, [.NEEDRS, .NEEDVT, .STORE]⟩

/-- `STV = RSP_BUILD_OP(STV, INVALID, INFO1(NONE))` -/
def STV : rsp_opcode_record := ⟨.STV, .INVALID, []⟩

/-- `SUV = RSP_BUILD_OP(SUV, INVALID, INFO1(NONE))` -/
def SUV : rsp_opcode_record := ⟨.SUV, .INVALID, []⟩

/-- `SWV = RSP_BUILD_OP(SWV, INVALID, INFO1(NONE))` -/
def SWV : rsp_opcode_record := ⟨.SWV, .INVALID, []⟩

/-- C7 counterexample: `LFV` (like LRV, LPV, LUV, LHV, LTV and the store
mirrors SRV, SPV, SUV, SHV, SFV, STV, SWV) decodes with function kind INVALID
and an empty info bitset: its info contains neither LOAD nor NEEDRS nor
NEEDVT, refuting the claim that every listed vector load variant carries
those flags. -/
theorem lfv_decode_lacks_load_flag :
    ¬ (rsp_opcode_info.LOAD ∈ LFV.info ∧ rsp_opcode_info.NEEDRS ∈ LFV.info ∧
       rsp_opcode_info.NEEDVT ∈ LFV.info) ∧
    LFV.fn = rsp_function_id.INVALID := by
  decide

/-- C7 (amended): among the RSP vector load/store variants, exactly
LBV, LSV, LLV, LDV, LQV decode with info containing LOAD, NEEDRS and NEEDVT,
and exactly SBV, SSV, SLV, SDV, SQV decode with info containing STORE, NEEDRS
and NEEDVT; the remaining variants (LRV, LPV, LUV, LHV, LFV, LTV and
SRV, SPV, SUV, SHV, SFV, STV, SWV) decode with function kind INVALID and an
empty info bitset.  No variant's record equals the INVALID operation record:
each keeps its own opcode kind. -/
theorem rsp_vector_loadstore_decode_table :
    (∀ op ∈ [LBV, LSV, LLV, LDV, LQV],
      rsp_opcode_info.LOAD ∈ op.info ∧ rsp_opcode_info.NEEDRS ∈ op.info ∧
      rsp_opcode_info.NEEDVT ∈ op.info ∧ op.fn = rsp_function_id.BDLQSV_SBDLQSV) ∧
    (∀ op ∈ [SBV, SSV, SLV, SDV, SQV],
      rsp_opcode_info.STORE ∈ op.info ∧ rsp_opcode_info.NEEDRS ∈ op.info ∧
      rsp_opcode_info.NEEDVT ∈ op.info ∧ op.fn = rsp_function_id.BDLQSV_SBDLQSV) ∧
    (∀ op ∈ [LRV, LPV, LUV, LHV, LFV, LTV, SRV, SPV, SUV, SHV, SFV, STV, SWV],
      op.fn = rsp_function_id.INVALID ∧ op.info = []) ∧
    (∀ op ∈ [LBV, LSV, LLV, LDV, LQV, LRV, LPV, LUV, LHV, LFV, LTV,
             SBV, SSV, SLV, SDV, SQV, SRV, SPV, SUV, SHV, SFV, STV, SWV],
      op ≠ INVALID) := by
  decide

/-- C7 witness: `rsp_vector_loadstore_decode_table` applied at `LBV` (a wired
load) and at `LFV` (an INVALID-function variant). -/
theorem rsp_vector_loadstore_decode_table_witness :
    (rsp_opcode_info.LOAD ∈ LBV.info ∧ rsp_opcode_info.NEEDRS ∈ LBV.info ∧
     rsp_opcode_info.NEEDVT ∈ LBV.info ∧ LBV.fn = rsp_function_id.BDLQSV_SBDLQSV) ∧
    (LFV.fn = rsp_function_id.INVALID ∧ LFV.info = []) :=
  ⟨rsp_vector_loadstore_decode_table.1 LBV (by decide),
   rsp_vector_loadstore_decode_table.2.2.1 LFV (by decide)⟩
